import Mathlib

/-!
Verification of the BOT_GPT retrieval-augmented conversation core.

Shallow embedding of the CORE subsystem of the BOT_GPT repository:

* `chunk_text`            — from `app/utils/chunking.py`
* `retrieve_top_k`        — from `app/services/rag_service.py` (the FAISS
                            `IndexFlatL2` search itself is an external library
                            dependency and is modelled from the spec)
* `build_message_history`, `create_conversation`, `add_message`
                          — from `app/services/conversation_service.py`

Document text is modelled as a list of character codes (`List Nat`), and
Python `str.strip()` on it by `strip` below over the ASCII whitespace class
(the class Python strips restricted to ASCII, which is all the concrete
inputs of this development use).  Python `int` parameters are modelled as
`Int`.  Service-level strings (titles, message contents, queries) stay
`String`, with `pyStrip` modelling `str.strip()` on them.
-/

namespace BotGpt

/-- ASCII whitespace as removed by Python `str.strip()`: space, tab, newline,
carriage return, vertical tab, form feed. -/
def isSpace (c : Nat) : Bool :=
  c == 32 || c == 9 || c == 10 || c == 13 || c == 11 || c == 12

/-- Model of Python `str.strip()` on character-code lists: drop leading and
trailing whitespace. -/
def strip (l : List Nat) : List Nat :=
  ((l.dropWhile isSpace).reverse.dropWhile isSpace).reverse

/-- Error raised by `chunk_text`.  `invalidParameter` models the `ValueError`
raised by parameter validation (`app/utils/chunking.py` lines 37-43);
`nonTermination` is a modelling artifact marking that the `while` loop did not
exit within the fuel bound (proved unreachable below). -/
inductive ChunkError where
  | invalidParameter (msg : String)
  | nonTermination
deriving Repr, DecidableEq

/-- One iteration body of the `chunk_text` loop (`app/utils/chunking.py` lines
63-68): `end = min(start + chunk_size, len(text))`, `chunk` is the stripped
slice `text[start:end]` (`(text.drop start).take (end - start)`), and the
chunk is appended only when non-empty. -/
def chunkStep (text : List Nat) (chunk_size start : Nat) (chunks : List (List Nat)) :
    List (List Nat) :=
  if strip ((text.drop start).take (min (start + chunk_size) text.length - start)) = [] then
    chunks
  else
    chunks ++ [strip ((text.drop start).take (min (start + chunk_size) text.length - start))]

/-- The `while start < len(text) and len(chunks) < max_chunks` loop of
`chunk_text` (`app/utils/chunking.py` lines 58-75), with `max_chunks = 1000`.
One unit of fuel is consumed per iteration; `none` means the loop did not exit
within the given fuel.  The update `start = end - overlap` followed by
`if start <= 0: break` coincides with truncated `Nat` subtraction: Python's
`end - overlap <= 0` holds exactly when the `Nat` difference
`min (start + chunk_size) text.length - overlap` is `0`. -/
def chunkLoop (text : List Nat) (chunk_size overlap : Nat) :
    Nat → Nat → List (List Nat) → Option (List (List Nat))
  | 0, _, _ => none
  | fuel + 1, start, chunks =>
    if start < text.length ∧ chunks.length < 1000 then
      if min (start + chunk_size) text.length - overlap = 0 then
        some (chunkStep text chunk_size start chunks)
      else
        chunkLoop text chunk_size overlap fuel
          (min (start + chunk_size) text.length - overlap)
          (chunkStep text chunk_size start chunks)
    else some chunks

/-- `chunk_text` from `app/utils/chunking.py`.  Validation mirrors lines 37-43;
the empty / whitespace-only check and the `text = text.strip()` normalization
are lines 46-51; the single-chunk case is lines 54-56; the window loop is
lines 58-75.  The trailing `if not chunks: return []` (lines 81-83) returns
the same value as `return chunks` and is elided.  The fuel
`(strip text).length + 1002` dominates the loop's possible iteration count
(proved below: the loop always exits on its own within that many iterations,
so the `nonTermination` branch is unreachable). -/
def chunk_text (text : List Nat) (chunk_size overlap : Int) :
    Except ChunkError (List (List Nat)) :=
  if chunk_size ≤ 0 then .error (.invalidParameter "chunk_size must be positive")
  else if overlap < 0 then .error (.invalidParameter "overlap cannot be negative")
  else if chunk_size ≤ overlap then .error (.invalidParameter "overlap must be less than chunk_size")
  else if strip text = [] then .ok []
  else if (strip text).length ≤ chunk_size.toNat then .ok [strip text]
  else
    match chunkLoop (strip text) chunk_size.toNat overlap.toNat
        ((strip text).length + 1002) 0 [] with
    | some chunks => .ok chunks
    | none => .error .nonTermination

/-- Model of Python `str.strip()` on `String` values. -/
def pyStrip (s : String) : String :=
  ⟨((s.data.dropWhile Char.isWhitespace).reverse.dropWhile Char.isWhitespace).reverse⟩

/-- A role-tagged message entry.  Both the `{"role": ..., "content": ...}`
dicts handed to the LLM API and the persisted `Message` rows (restricted to
the fields the CORE reads) are modelled by this. -/
structure Msg where
  role : String
  content : String
deriving Repr, DecidableEq

/-- The fixed base system instruction (`conversation_service.py` line 300). -/
def systemPromptBase : String := "You are a helpful AI assistant."

/-- The clause appended to the system prompt in rag mode (line 302). -/
def systemPromptRagClause : String := " You have access to document context provided below."

/-- The label prefixed to retrieved document context (line 312). -/
def documentContextLabel : String := "Document Context:\n"

/-- Python `l[-n:]`.  Note `l[-0:]` is the whole list, hence the special
case (the code always calls this with the validated positive
`MAX_HISTORY_MESSAGES`). -/
def pySliceLast (l : List α) (n : Nat) : List α :=
  if n = 0 then l else l.drop (l.length - n)

/-- `_build_message_history` (`conversation_service.py` lines 274-327):
1. one system entry with the base prompt, plus the rag clause when
   `mode == "rag"` (lines 299-304);
2. in rag mode, one system entry with the labelled context when the retrieved
   context is non-empty (lines 306-315) — `ragContext` stands for the string
   `_retrieve_rag_context` returns, and is only consulted in rag mode;
3. the trailing `MAX_HISTORY_MESSAGES` slice of the history, each entry
   re-emitted with its stored role and content (lines 317-321);
4. the current user message (line 324). -/
def build_message_history (mode : String) (ragContext : String) (history : List Msg)
    (maxHistoryMessages : Nat) (user_message : String) : List Msg :=
  (((if mode = "rag" then
      [Msg.mk "system" (systemPromptBase ++ systemPromptRagClause)]
    else
      [Msg.mk "system" systemPromptBase]) ++
   (if mode = "rag" ∧ ragContext ≠ "" then
      [Msg.mk "system" (documentContextLabel ++ ragContext)]
    else [])) ++
   (pySliceLast history maxHistoryMessages).map (fun m => Msg.mk m.role m.content)) ++
  [Msg.mk "user" user_message]

/-- The database session, restricted to the rows of the one conversation a
turn touches.  `committed…` rows are durable and visible to any reader of
conversation history; `pending…` rows have been added (and possibly flushed)
inside the open transaction and vanish on rollback.  Message lists are kept
in insertion order, which the model equates with `created_at` order. -/
structure DbState where
  committedConversations : List Nat
  committedMessages : List Msg
  committedDocLinks : List (Nat × Nat)
  pendingConversations : List Nat
  pendingMessages : List Msg
  pendingDocLinks : List (Nat × Nat)
deriving Repr, DecidableEq

/-- `db.rollback()`: discard everything uncommitted. -/
def DbState.rollback (db : DbState) : DbState :=
  { db with pendingConversations := [], pendingMessages := [], pendingDocLinks := [] }

/-- `db.commit()`: make all pending rows durable (appending `extra` rows that
were added just before the commit). -/
def DbState.commitWith (db : DbState) (extra : List Msg) : DbState :=
  { committedConversations := db.committedConversations ++ db.pendingConversations
    committedMessages := db.committedMessages ++ db.pendingMessages ++ extra
    committedDocLinks := db.committedDocLinks ++ db.pendingDocLinks
    pendingConversations := []
    pendingMessages := []
    pendingDocLinks := [] }

/-- Errors raised by the conversation service: `invalidParameter` models the
validation `ValueError`s, `serviceError` models `ConversationServiceError`. -/
inductive ConvError where
  | invalidParameter (msg : String)
  | serviceError (msg : String)
deriving Repr, DecidableEq

/-- The message list a conversation turn hands to the Completion Engine:
the user row is added and flushed (`conversation_service.py` lines 107-127 or
209-216) before `_get_conversation_history` (lines 379-391) runs, so the
history `_build_message_history` slices already ends with the new user row.
`content` is the user message as persisted (already stripped in the
`create_conversation` flow, verbatim in the `add_message` flow — both flows
pass the same string on to `_build_message_history`). -/
def turn_llm_input (db : DbState) (mode ragContext content : String)
    (maxHistoryMessages : Nat) : List Msg :=
  build_message_history mode ragContext
    (db.committedMessages ++ db.pendingMessages ++ [Msg.mk "user" content])
    maxHistoryMessages content

/-- `create_conversation` (`conversation_service.py` lines 56-166).
`llm` is the Completion Engine collaborator (`LLMService.chat_completion`):
reply text, or the `LLMServiceError` message.  `ragContext` stands for the
value `_retrieve_rag_context` returns during the turn, `conversation_id` for
the id the flush assigns.  Returns the session state after the call together
with the raised error or the two returned messages.  On `LLMServiceError` a
`ConversationServiceError` is raised (lines 136-138), caught at line 160, and
the session rolled back (line 161). -/
def create_conversation (db : DbState) (llm : List Msg → Except String String)
    (user_id : Int) (title : String) (mode : String) (first_message : String)
    (document_ids : List Int) (ragContext : String) (maxHistoryMessages : Nat)
    (conversation_id : Nat) : DbState × Except ConvError (List Msg) :=
  if user_id ≤ 0 then (db, .error (.invalidParameter "Invalid user_id"))
  else if pyStrip title = "" then (db, .error (.invalidParameter "title cannot be empty"))
  else if mode ≠ "open" ∧ mode ≠ "rag" then (db, .error (.invalidParameter "Invalid mode"))
  else if pyStrip first_message = "" then
    (db, .error (.invalidParameter "first_message cannot be empty"))
  else
    match llm (turn_llm_input
        { db with
          pendingConversations := db.pendingConversations ++ [conversation_id]
          pendingDocLinks := db.pendingDocLinks ++
            (if mode = "rag" then
              (document_ids.filter (fun d => 0 < d)).map (fun (d : Int) => (conversation_id, d.toNat))
            else []) }
        mode ragContext (pyStrip first_message) maxHistoryMessages) with
    | .error e =>
        (db.rollback,
         .error (.serviceError ("Failed to get LLM response: " ++ e)))
    | .ok reply =>
        (({ db with
            pendingConversations := db.pendingConversations ++ [conversation_id]
            pendingMessages := db.pendingMessages ++ [Msg.mk "user" (pyStrip first_message)]
            pendingDocLinks := db.pendingDocLinks ++
              (if mode = "rag" then
                (document_ids.filter (fun d => 0 < d)).map (fun (d : Int) => (conversation_id, d.toNat))
              else []) }).commitWith [Msg.mk "assistant" reply],
         .ok [Msg.mk "user" (pyStrip first_message), Msg.mk "assistant" reply])

/-- `add_message` (`conversation_service.py` lines 168-248).  `found` models
whether the ownership query (lines 201-204) returned a row; `mode` is the
found conversation's mode.  The user message is persisted verbatim (line 213,
not stripped).  Any `ConversationServiceError` or `LLMServiceError` raised
inside the `try` block is caught by the blanket handler (lines 245-248),
which rolls the session back and re-raises a wrapped
`ConversationServiceError`. -/
def add_message (db : DbState) (llm : List Msg → Except String String)
    (conversation_id user_id : Int) (content : String) (found : Bool)
    (mode : String) (ragContext : String) (maxHistoryMessages : Nat) :
    DbState × Except ConvError (List Msg) :=
  if conversation_id ≤ 0 then (db, .error (.invalidParameter "Invalid conversation_id"))
  else if user_id ≤ 0 then (db, .error (.invalidParameter "Invalid user_id"))
  else if pyStrip content = "" then (db, .error (.invalidParameter "content cannot be empty"))
  else if ¬ found then
    (db.rollback,
     .error (.serviceError "Failed to add message: Conversation not found or access denied"))
  else
    match llm (turn_llm_input db mode ragContext content maxHistoryMessages) with
    | .error e =>
        (db.rollback,
         .error (.serviceError ("Failed to add message: Failed to get LLM response: " ++ e)))
    | .ok reply =>
        (({ db with pendingMessages := db.pendingMessages ++ [Msg.mk "user" content] }).commitWith
            [Msg.mk "assistant" reply],
         .ok [Msg.mk "user" content, Msg.mk "assistant" reply])

/-- A loaded FAISS flat index: the embedding vectors of one document's chunks
in chunk-index order (`index.ntotal = vectors.length`).  Embedding components
are modelled as exact integers; the claims this development settles concern
result counts and ordering, not float rounding. -/
structure FaissIndex where
  vectors : List (List Int)
deriving Repr, DecidableEq

/-- A persisted index file for one document: either one `faiss.read_index`
loads (`stored`), or one it raises on (`malformed`).  A document with no
entry has no index file on disk. -/
inductive DiskEntry where
  | malformed
  | stored (index : FaissIndex)
deriving Repr, DecidableEq

/-- The RAG service's mutable state: the in-process index cache
(`self._index_cache`) and the index directory on disk, both keyed by
document id. -/
structure RagState where
  cache : List (Nat × FaissIndex)
  disk : List (Nat × DiskEntry)
deriving Repr, DecidableEq

/-- Errors raised by the RAG service: `invalidParameter` models the
validation `ValueError`s, `serviceError` models `RAGServiceError`. -/
inductive RagError where
  | invalidParameter (msg : String)
  | serviceError (msg : String)
deriving Repr, DecidableEq

/-- Squared Euclidean distance over embeddings. -/
def sqL2 (u v : List Int) : Int :=
  (List.zipWith (fun a b => (a - b) * (a - b)) u v).sum

/-- Modelled from the spec: FAISS `IndexFlatL2.search` — the faiss library is
an external dependency, not part of `src/`.  Per the spec it is exact
nearest-neighbor search under squared Euclidean distance, returning the `k`
nearest stored vectors' positions ordered by ascending distance. -/
def faissSearch (index : FaissIndex) (q : List Int) (k : Nat) : List (Nat × Int) :=
  ((index.vectors.enum.map (fun iv => (iv.1, sqL2 q iv.2))).mergeSort
    (fun a b => decide (a.2 ≤ b.2))).take k

/-- The query-and-search part of `retrieve_top_k` (`rag_service.py` lines
208-225), run once an index is in hand: encode the stripped query, clamp `k`
to the index cardinality (`search_k = min(k, index.ntotal)`), return `[]`
when the clamp is zero, else search.  `embed` is the SentenceTransformer
collaborator applied to the stripped query; `none` models `model.encode`
raising, which the blanket handler at lines 227-229 turns into a
`RAGServiceError`. -/
def searchIndex (embed : String → Option (List Int)) (index : FaissIndex)
    (query : String) (k : Nat) : Except RagError (List (Nat × Int)) :=
  match embed (pyStrip query) with
  | none => .error (.serviceError "Failed to retrieve chunks")
  | some q =>
      if min k index.vectors.length = 0 then .ok []
      else .ok (faissSearch index q (min k index.vectors.length))

/-- `retrieve_top_k` (`rag_service.py` lines 149-229): validate, then use the
cached index if present; otherwise a missing index file returns `[]` (lines
196-198), a file `faiss.read_index` raises on is caught at lines 204-206 and
also returns `[]`, and a loaded file is installed into the cache (line 202).
Returns the updated service state together with the result or raised
error. -/
def retrieve_top_k (st : RagState) (embed : String → Option (List Int))
    (document_id : Int) (query : String) (k : Int) :
    RagState × Except RagError (List (Nat × Int)) :=
  if document_id ≤ 0 then (st, .error (.invalidParameter "Invalid document_id"))
  else if pyStrip query = "" then
    (st, .error (.invalidParameter "Query cannot be empty or whitespace"))
  else if k ≤ 0 then (st, .error (.invalidParameter "k must be positive"))
  else
    match st.cache.lookup document_id.toNat with
    | some index => (st, searchIndex embed index query k.toNat)
    | none =>
        match st.disk.lookup document_id.toNat with
        | none => (st, .ok [])
        | some .malformed => (st, .ok [])
        | some (.stored index) =>
            ({ st with cache := (document_id.toNat, index) :: st.cache },
             searchIndex embed index query k.toNat)

/-! ### Helper lemmas about `strip` -/

theorem dropWhile_eq_self_of_head?_false {p : α → Bool} {l : List α} {a : α}
    (h : l.head? = some a) (ha : p a = false) : l.dropWhile p = l := by
  cases l with
  | nil => simp at h
  | cons b bs =>
    simp only [List.head?_cons, Option.some.injEq] at h
    subst h
    simp [List.dropWhile_cons, ha]

theorem getLast?_of_suffix {l₁ l₂ : List α} (h : l₁ <:+ l₂) (hne : l₁ ≠ []) :
    l₂.getLast? = l₁.getLast? := by
  obtain ⟨pre, rfl⟩ := h
  obtain ⟨c, hc⟩ := Option.isSome_iff_exists.mp (List.getLast?_isSome.mpr hne)
  simp [List.getLast?_append, hc]

theorem strip_ne_nil_of_getLast? {l : List Nat} {c : Nat} (hc : l.getLast? = some c)
    (hsp : isSpace c = false) : strip l ≠ [] ∧ strip l = l.dropWhile isSpace := by
  have h1 : l.dropWhile isSpace ≠ [] := by
    intro h
    have := List.dropWhile_eq_nil_iff.mp h _ (List.mem_of_getLast?_eq_some hc)
    rw [hsp] at this
    exact Bool.false_ne_true this
  have h2 : (l.dropWhile isSpace).getLast? = some c := by
    rw [← getLast?_of_suffix (List.dropWhile_suffix isSpace) h1]
    exact hc
  have h3 : (l.dropWhile isSpace).reverse.head? = some c := by
    rw [List.head?_reverse]
    exact h2
  have h4 : (l.dropWhile isSpace).reverse.dropWhile isSpace = (l.dropWhile isSpace).reverse :=
    dropWhile_eq_self_of_head?_false h3 hsp
  constructor
  · rw [strip, h4]
    simpa using h1
  · rw [strip, h4, List.reverse_reverse]

theorem strip_getLast?_false {l : List Nat} (h : strip l ≠ []) :
    ∃ c, (strip l).getLast? = some c ∧ isSpace c = false := by
  rw [strip] at h ⊢
  have hmne : (l.dropWhile isSpace).reverse.dropWhile isSpace ≠ [] := by
    simpa using h
  refine ⟨((l.dropWhile isSpace).reverse.dropWhile isSpace).head hmne, ?_, ?_⟩
  · rw [List.getLast?_reverse]
    exact List.head?_eq_head hmne
  · exact List.head_dropWhile_not isSpace _ hmne

theorem strip_drop_ne_nil {t : List Nat} {c start : Nat} (hlast : t.getLast? = some c)
    (hsp : isSpace c = false) (hlt : start < t.length) :
    strip (t.drop start) ≠ [] := by
  have hdne : t.drop start ≠ [] := by
    rw [ne_eq, List.drop_eq_nil_iff]
    omega
  have hdl : (t.drop start).getLast? = some c := by
    rw [← getLast?_of_suffix (List.drop_suffix start t) hdne]
    exact hlast
  exact (strip_ne_nil_of_getLast? hdl hsp).1

theorem strip_eq_nil_of_all_space {l : List Nat} (h : ∀ x ∈ l, isSpace x = true) :
    strip l = [] := by
  rw [strip, List.dropWhile_eq_nil_iff.mpr h]
  simp

/-! ### Helper lemmas about the chunking loop -/

theorem chunkLoop_succ (t : List Nat) (cs ov fuel start : Nat) (chunks : List (List Nat)) :
    chunkLoop t cs ov (fuel + 1) start chunks =
      if start < t.length ∧ chunks.length < 1000 then
        if min (start + cs) t.length - ov = 0 then
          some (chunkStep t cs start chunks)
        else
          chunkLoop t cs ov fuel (min (start + cs) t.length - ov) (chunkStep t cs start chunks)
      else some chunks := rfl

theorem chunkStep_length_le (t : List Nat) (cs start : Nat) (chunks : List (List Nat)) :
    (chunkStep t cs start chunks).length ≤ chunks.length + 1 := by
  rw [chunkStep]
  split <;> simp

theorem chunkStep_cases (t : List Nat) (cs start : Nat) (chunks : List (List Nat)) :
    (strip ((t.drop start).take (min (start + cs) t.length - start)) = [] ∧
      chunkStep t cs start chunks = chunks) ∨
    chunkStep t cs start chunks =
      chunks ++ [strip ((t.drop start).take (min (start + cs) t.length - start))] := by
  rw [chunkStep]
  split
  · exact .inl ⟨by assumption, rfl⟩
  · exact .inr rfl

theorem chunkLoop_length_le (t : List Nat) (cs ov : Nat) (fuel : Nat) :
    ∀ (start : Nat) (chunks r : List (List Nat)),
      chunkLoop t cs ov fuel start chunks = some r → chunks.length ≤ 1000 →
      r.length ≤ 1000 := by
  induction fuel with
  | zero =>
    intro start chunks r h _
    simp [chunkLoop] at h
  | succ fuel ih =>
    intro start chunks r h hle
    rw [chunkLoop_succ] at h
    by_cases h1 : start < t.length ∧ chunks.length < 1000
    · rw [if_pos h1] at h
      by_cases h2 : min (start + cs) t.length - ov = 0
      · rw [if_pos h2] at h
        have hr := Option.some.inj h
        subst hr
        have := chunkStep_length_le t cs start chunks
        omega
      · rw [if_neg h2] at h
        exact ih _ _ r h (le_trans (chunkStep_length_le t cs start chunks) (by omega))
    · rw [if_neg h1] at h
      have hr := Option.some.inj h
      subst hr
      exact hle

theorem chunkLoop_isSome (t : List Nat) (cs ov : Nat) (c : Nat)
    (hov : ov < cs)
    (hlast : t.getLast? = some c) (hsp : isSpace c = false) (fuel : Nat) :
    ∀ (start : Nat) (chunks : List (List Nat)),
      start + ov ≤ t.length →
      t.length - start + (1000 - chunks.length) < fuel →
      (chunkLoop t cs ov fuel start chunks).isSome := by
  induction fuel with
  | zero =>
    intro start chunks _ hm
    omega
  | succ fuel ih =>
    intro start chunks hinv hfuel
    rw [chunkLoop_succ]
    by_cases h1 : start < t.length ∧ chunks.length < 1000
    · rw [if_pos h1]
      by_cases h2 : min (start + cs) t.length - ov = 0
      · rw [if_pos h2]
        simp
      · rw [if_neg h2]
        have hminle : min (start + cs) t.length ≤ t.length := Nat.min_le_right _ _
        have hminge : start + ov ≤ min (start + cs) t.length :=
          Nat.le_min.mpr ⟨by omega, hinv⟩
        rcases chunkStep_cases t cs start chunks with ⟨hc0, hstep⟩ | hstep
        · -- the stripped slice was empty: the slice cannot reach the end of the
          -- text (the text's last character is not whitespace), so the window
          -- advanced by chunk_size - overlap > 0 without appending
          have hcmp : start + cs < t.length := by
            rcases Nat.lt_or_ge (start + cs) t.length with h | h
            · exact h
            · exfalso
              have hmin : min (start + cs) t.length = t.length := Nat.min_eq_right h
              rw [hmin] at hc0
              have hfull : (t.drop start).take (t.length - start) = t.drop start := by
                apply List.take_of_length_le
                simp
              rw [hfull] at hc0
              exact strip_drop_ne_nil hlast hsp h1.1 hc0
          have hmin : min (start + cs) t.length = start + cs :=
            Nat.min_eq_left (Nat.le_of_lt hcmp)
          rw [hstep, hmin]
          apply ih
          · omega
          · omega
        · rw [hstep]
          apply ih
          · omega
          · rw [List.length_append]
            simp only [List.length_singleton]
            omega
    · rw [if_neg h1]
      simp

/-- With valid parameters `chunk_text` always returns `.ok`, with at most
1000 chunks: the loop exits on its own within the provided fuel. -/
theorem chunk_text_ok_aux (text : List Nat) (chunk_size overlap : Int)
    (h1 : 0 < chunk_size) (h2 : 0 ≤ overlap) (h3 : overlap < chunk_size) :
    ∃ l, chunk_text text chunk_size overlap = .ok l ∧ l.length ≤ 1000 := by
  rw [chunk_text, if_neg (by omega), if_neg (by omega), if_neg (by omega)]
  by_cases he : strip text = []
  · rw [if_pos he]
    exact ⟨[], rfl, by simp⟩
  · rw [if_neg he]
    by_cases hlen : (strip text).length ≤ chunk_size.toNat
    · rw [if_pos hlen]
      exact ⟨[strip text], rfl, by simp⟩
    · rw [if_neg hlen]
      obtain ⟨c, hc, hsp⟩ := strip_getLast?_false he
      have hsome := chunkLoop_isSome (strip text) chunk_size.toNat overlap.toNat c
        (by omega) hc hsp ((strip text).length + 1002) 0 []
        (by omega) (by simp only [List.length_nil]; omega)
      obtain ⟨r, hr⟩ := Option.isSome_iff_exists.mp hsome
      rw [hr]
      exact ⟨r, rfl, chunkLoop_length_le (strip text) chunk_size.toNat overlap.toNat
        ((strip text).length + 1002) 0 [] r hr (by simp)⟩

/-- **C9.**  For every valid `chunk_size` and `overlap`, chunking an empty or
whitespace-only string returns an empty sequence (not an error), and chunking
a string whose trimmed length is positive and at most `chunk_size` returns
exactly one chunk equal to the trimmed input
(`app/utils/chunking.py` lines 45-56). -/
theorem chunk_text_trivial_cases (text : List Nat) (chunk_size overlap : Int)
    (h1 : 0 < chunk_size) (h2 : 0 ≤ overlap) (h3 : overlap < chunk_size) :
    ((∀ x ∈ text, isSpace x = true) → chunk_text text chunk_size overlap = .ok []) ∧
    (0 < (strip text).length → (strip text).length ≤ chunk_size.toNat →
      chunk_text text chunk_size overlap = .ok [strip text]) := by
  constructor
  · intro hsp
    rw [chunk_text, if_neg (by omega), if_neg (by omega), if_neg (by omega),
      if_pos (strip_eq_nil_of_all_space hsp)]
  · intro hpos hle
    rw [chunk_text, if_neg (by omega), if_neg (by omega), if_neg (by omega),
      if_neg (by intro h; rw [h] at hpos; simp at hpos), if_pos hle]

/-- Witness for `chunk_text_trivial_cases` at concrete inputs: the
whitespace-only text `[32, 9, 32]` yields no chunks, and `[32, 97, 32]`
(an `"a"` with surrounding blanks) yields the single trimmed chunk `[97]`,
for `chunk_size = 5`, `overlap = 1`. -/
theorem chunk_text_trivial_cases_witness :
    chunk_text [32, 9, 32] 5 1 = .ok [] ∧ chunk_text [32, 97, 32] 5 1 = .ok [strip [32, 97, 32]] :=
  ⟨(chunk_text_trivial_cases [32, 9, 32] 5 1 (by decide) (by decide) (by decide)).1 (by decide),
   (chunk_text_trivial_cases [32, 97, 32] 5 1 (by decide) (by decide) (by decide)).2
     (by decide) (by decide)⟩

/-- **C10.**  `chunk_text` fails with an `InvalidParameter` error exactly when
its preconditions are violated: it errors iff `chunk_size <= 0`, or
`overlap < 0`, or `overlap >= chunk_size`; with valid parameters it never
raises, for any text (`app/utils/chunking.py` lines 37-43). -/
theorem chunk_text_error_iff (text : List Nat) (chunk_size overlap : Int) :
    ((∃ msg, chunk_text text chunk_size overlap = .error (.invalidParameter msg)) ↔
      chunk_size ≤ 0 ∨ overlap < 0 ∨ chunk_size ≤ overlap) ∧
    (0 < chunk_size → 0 ≤ overlap → overlap < chunk_size →
      ∃ l, chunk_text text chunk_size overlap = .ok l) := by
  constructor
  · constructor
    · rintro ⟨msg, he⟩
      by_contra hv
      push_neg at hv
      obtain ⟨l, hl, _⟩ := chunk_text_ok_aux text chunk_size overlap
        (by omega) (by omega) (by omega)
      rw [hl] at he
      exact Except.noConfusion he
    · intro hv
      rw [chunk_text]
      by_cases a : chunk_size ≤ 0
      · rw [if_pos a]
        exact ⟨_, rfl⟩
      · rw [if_neg a]
        by_cases b : overlap < 0
        · rw [if_pos b]
          exact ⟨_, rfl⟩
        · rw [if_neg b, if_pos (by omega)]
          exact ⟨_, rfl⟩
  · intro h1 h2 h3
    obtain ⟨l, hl, _⟩ := chunk_text_ok_aux text chunk_size overlap h1 h2 h3
    exact ⟨l, hl⟩

/-- Witness for `chunk_text_error_iff`: invalid parameters (`overlap =
chunk_size`) fail, valid ones succeed, on the text `"a"`. -/
theorem chunk_text_error_iff_witness :
    (∃ msg, chunk_text [97] 5 5 = .error (.invalidParameter msg)) ∧
    ∃ l, chunk_text [97] 5 1 = .ok l :=
  ⟨(chunk_text_error_iff [97] 5 5).1.mpr (Or.inr (Or.inr (by decide))),
   (chunk_text_error_iff [97] 5 1).2 (by decide) (by decide) (by decide)⟩

/-- **C6.**  For all `chunk_size > overlap >= 0` and every input text,
`chunk_text` terminates with a result (the loop's `nonTermination` marker is
unreachable) of at most 1000 chunks. -/
theorem chunk_text_terminates_le_1000 (text : List Nat) (chunk_size overlap : Int)
    (h1 : 0 < chunk_size) (h2 : 0 ≤ overlap) (h3 : overlap < chunk_size) :
    ∃ l, chunk_text text chunk_size overlap = .ok l ∧ l.length ≤ 1000 :=
  chunk_text_ok_aux text chunk_size overlap h1 h2 h3

/-- Witness for `chunk_text_terminates_le_1000` at a concrete input. -/
theorem chunk_text_terminates_le_1000_witness :
    ∃ l, chunk_text [97, 98, 99, 100, 101] 2 1 = .ok l ∧ l.length ≤ 1000 :=
  chunk_text_terminates_le_1000 [97, 98, 99, 100, 101] 2 1
    (by decide) (by decide) (by decide)

theorem strip_replicate_97 (n : Nat) :
    strip (List.replicate n 97) = List.replicate n 97 := by
  simp [strip, List.dropWhile_replicate, isSpace]

/-- Once the window boundary has reached the end of the text
(`min (start + cs) t.length = t.length`) with `t.length - ov = start`, the
loop is at a fixed point: every further iteration re-appends the same final
window, until the 1000-chunk cap stops it. -/
theorem chunkLoop_fixpoint (t : List Nat) (cs ov start : Nat)
    (hlt : start < t.length)
    (he : min (start + cs) t.length = t.length)
    (hov : t.length - ov = start)
    (hne : start ≠ 0)
    (hc : strip ((t.drop start).take (t.length - start)) ≠ []) (fuel : Nat) :
    ∀ (chunks : List (List Nat)), 1000 - chunks.length < fuel → chunks.length ≤ 1000 →
      chunkLoop t cs ov fuel start chunks =
        some (chunks ++ List.replicate (1000 - chunks.length)
          (strip ((t.drop start).take (t.length - start)))) := by
  induction fuel with
  | zero =>
    intro chunks hfuel _
    omega
  | succ fuel ih =>
    intro chunks hfuel hlen
    rw [chunkLoop_succ]
    by_cases h1000 : chunks.length < 1000
    · rw [if_pos ⟨hlt, h1000⟩]
      have hstep : chunkStep t cs start chunks =
          chunks ++ [strip ((t.drop start).take (t.length - start))] := by
        rw [chunkStep, he, if_neg hc]
      rw [he, hov, if_neg hne, hstep]
      rw [ih (chunks ++ [strip ((t.drop start).take (t.length - start))])
        (by simp; omega) (by simp; omega)]
      rw [List.append_assoc]
      congr 1
      simp only [List.singleton_append, ← List.replicate_succ]
      congr 1
      simp
      omega
    · rw [if_neg (by omega)]
      have h : chunks.length = 1000 := by omega
      simp [h]

set_option maxRecDepth 8192 in
/-- **C1 (against the claim).**  On a 250-character string with
`chunk_size = 100`, `overlap = 20`, the windowing does **not** stop when the
window boundary reaches the end of the text: the window at `start = 160` has
boundary `min(260, 250) = 250`, yet the loop continues at `start = 230`, and
from there `start = end - overlap = 250 - 20 = 230` no longer advances, so
the final 20-character window is re-emitted until the 1000-chunk cap and
`chunk_text` returns 1000 chunks where the claim allows no chunk beyond the
one whose boundary reaches the end (3 windows: 0, 80, 160). -/
theorem chunk_text_250_overruns_end :
    Except.map List.length (chunk_text (List.replicate 250 97) 100 20) = .ok 1000 := by
  have s1 : chunkStep (List.replicate 250 97) 100 0 [] = [List.replicate 100 97] := by
    rw [chunkStep]
    norm_num [List.take_replicate, List.drop_replicate, strip_replicate_97]
  have s2 : chunkStep (List.replicate 250 97) 100 80 [List.replicate 100 97] =
      [List.replicate 100 97, List.replicate 100 97] := by
    rw [chunkStep]
    norm_num [List.take_replicate, List.drop_replicate, strip_replicate_97]
  have s3 : chunkStep (List.replicate 250 97) 100 160
      [List.replicate 100 97, List.replicate 100 97] =
      [List.replicate 100 97, List.replicate 100 97, List.replicate 90 97] := by
    rw [chunkStep]
    norm_num [List.take_replicate, List.drop_replicate, strip_replicate_97]
  have hloop : chunkLoop (List.replicate 250 97) 100 20 1252 0 [] =
      some ([List.replicate 100 97, List.replicate 100 97, List.replicate 90 97] ++
        List.replicate 997 (List.replicate 20 97)) := by
    rw [show (1252 : Nat) = 1251 + 1 from rfl, chunkLoop_succ,
      if_pos (by norm_num), if_neg (by norm_num)]
    norm_num [s1]
    rw [show (1251 : Nat) = 1250 + 1 from rfl, chunkLoop_succ,
      if_pos (by norm_num), if_neg (by norm_num)]
    norm_num [s2]
    rw [show (1250 : Nat) = 1249 + 1 from rfl, chunkLoop_succ,
      if_pos (by norm_num), if_neg (by norm_num)]
    norm_num [s3]
    have := chunkLoop_fixpoint (List.replicate 250 97) 100 20 230
      (by norm_num) (by norm_num) (by norm_num) (by norm_num)
      (by norm_num [List.take_replicate, List.drop_replicate, strip_replicate_97])
      1249
      [List.replicate 100 97, List.replicate 100 97, List.replicate 90 97]
      (by norm_num) (by norm_num)
    rw [this]
    norm_num [List.take_replicate, List.drop_replicate, strip_replicate_97]
  rw [chunk_text, if_neg (by norm_num), if_neg (by norm_num), if_neg (by norm_num)]
  rw [strip_replicate_97]
  rw [if_neg (by norm_num), if_neg (by norm_num)]
  rw [show (List.replicate 250 (97 : Nat)).length + 1002 = 1252 by norm_num,
    show (100 : Int).toNat = 100 from rfl, show (20 : Int).toNat = 20 from rfl]
  rw [hloop]
  simp [Except.map, List.length_cons]

/-! ### Context assembly -/

/-- The assembled message list, written out: base system entry (with the rag
clause exactly in rag mode), optional context entry, trailing `n` history
entries in stored order, final user entry. -/
theorem build_message_history_eq (mode ragContext : String) (history : List Msg)
    (n : Nat) (msg : String) (hn : 0 < n) :
    build_message_history mode ragContext history n msg =
      (if mode = "rag" then [Msg.mk "system" (systemPromptBase ++ systemPromptRagClause)]
        else [Msg.mk "system" systemPromptBase]) ++
      (if mode = "rag" ∧ ragContext ≠ "" then
        [Msg.mk "system" (documentContextLabel ++ ragContext)] else []) ++
      history.drop (history.length - n) ++ [Msg.mk "user" msg] := by
  rw [build_message_history, pySliceLast, if_neg (show ¬ n = 0 by omega)]
  rw [show (fun m : Msg => Msg.mk m.role m.content) = id from rfl, List.map_id]

/-- **C2.**  For every conversation mode, retrieved context, history and
non-empty new message, `_build_message_history` produces exactly: one system
entry with the base instruction (rag clause appended exactly when the mode is
`"rag"`), then — only in rag mode with non-empty retrieved context — one
system entry with the fixed label and the context, then the trailing
`maxHistoryMessages` history entries oldest-first with role and content
verbatim, then one final user entry; in `"open"` mode no document-context
entry is ever included (`conversation_service.py` lines 274-327). -/
theorem build_message_history_order (mode ragContext : String) (history : List Msg)
    (n : Nat) (msg : String)
    (hmode : mode = "open" ∨ mode = "rag") (hn : 0 < n) (hmsg : msg ≠ "") :
    build_message_history mode ragContext history n msg =
      (if mode = "rag" then [Msg.mk "system" (systemPromptBase ++ systemPromptRagClause)]
        else [Msg.mk "system" systemPromptBase]) ++
      (if mode = "rag" ∧ ragContext ≠ "" then
        [Msg.mk "system" (documentContextLabel ++ ragContext)] else []) ++
      history.drop (history.length - n) ++ [Msg.mk "user" msg] :=
  build_message_history_eq mode ragContext history n msg hn

/-- Witness for `build_message_history_order`: rag mode with context and a
3-entry history windowed to the trailing 2. -/
theorem build_message_history_order_witness :
    build_message_history "rag" "ctx"
        [Msg.mk "user" "a", Msg.mk "assistant" "b", Msg.mk "user" "c"] 2 "hi" =
      [Msg.mk "system" (systemPromptBase ++ systemPromptRagClause),
       Msg.mk "system" (documentContextLabel ++ "ctx"),
       Msg.mk "assistant" "b", Msg.mk "user" "c", Msg.mk "user" "hi"] := by
  rw [build_message_history_order "rag" "ctx"
    [Msg.mk "user" "a", Msg.mk "assistant" "b", Msg.mk "user" "c"] 2 "hi"
    (Or.inr rfl) (by decide) (by decide)]
  simp

/-- **C3.**  A conversation turn flushes the new user message before the
history query runs (`conversation_service.py` lines 209-216 then 318 and
389-391), so the list handed to the Completion Engine contains the new user
message twice whenever the conversation's message count fits inside the
trailing `maxHistoryMessages` window: once as the last history entry and once
as the final appended user entry. -/
theorem turn_llm_input_duplicates_user (db : DbState) (mode ragContext content : String)
    (n : Nat) (hmode : mode = "open" ∨ mode = "rag") (hn : 0 < n)
    (hwin : (db.committedMessages ++ db.pendingMessages).length + 1 ≤ n) :
    turn_llm_input db mode ragContext content n =
      (if mode = "rag" then [Msg.mk "system" (systemPromptBase ++ systemPromptRagClause)]
        else [Msg.mk "system" systemPromptBase]) ++
      (if mode = "rag" ∧ ragContext ≠ "" then
        [Msg.mk "system" (documentContextLabel ++ ragContext)] else []) ++
      (db.committedMessages ++ db.pendingMessages) ++
      [Msg.mk "user" content, Msg.mk "user" content] := by
  rw [turn_llm_input, build_message_history_eq _ _ _ _ _ hn]
  have hz : (db.committedMessages ++ db.pendingMessages ++ [Msg.mk "user" content]).length - n
      = 0 := by
    simp only [List.length_append, List.length_singleton]
    simp only [List.length_append] at hwin
    omega
  rw [hz, List.drop_zero]
  simp [List.append_assoc]

/-- Witness for `turn_llm_input_duplicates_user`: one committed prior
exchange, open mode, window of 10. -/
theorem turn_llm_input_duplicates_user_witness :
    turn_llm_input
        (DbState.mk [7] [Msg.mk "user" "a", Msg.mk "assistant" "b"] [] [] [] [])
        "open" "" "again" 10 =
      [Msg.mk "system" systemPromptBase] ++
      [Msg.mk "user" "a", Msg.mk "assistant" "b"] ++
      [Msg.mk "user" "again", Msg.mk "user" "again"] := by
  rw [turn_llm_input_duplicates_user
    (DbState.mk [7] [Msg.mk "user" "a", Msg.mk "assistant" "b"] [] [] [] [])
    "open" "" "again" 10 (Or.inl rfl) (by decide) (by decide)]
  simp

/-! ### Transactional rollback of a conversation turn -/

/-- **C4.**  When the Completion Engine call fails, a conversation turn —
new conversation or appended message — rolls back as a unit: the committed
rows are exactly what they were before the turn, nothing uncommitted
survives, and in particular the new user message is not persisted without an
assistant reply (`conversation_service.py` lines 129-166 and 199-248). -/
theorem turn_rolls_back_on_llm_failure (db : DbState)
    (llm : List Msg → Except String String)
    (user_id conversation_id : Int) (title mode first_message content ragContext : String)
    (document_ids : List Int) (n : Nat) (conv_id : Nat) (e : String)
    (hfail : ∀ msgs, llm msgs = .error e)
    (huid : 0 < user_id) (hcid : 0 < conversation_id)
    (htitle : pyStrip title ≠ "") (hmode : mode = "open" ∨ mode = "rag")
    (hfm : pyStrip first_message ≠ "") (hcontent : pyStrip content ≠ "") :
    (∃ err, create_conversation db llm user_id title mode first_message document_ids
        ragContext n conv_id = (db.rollback, .error (.serviceError err))) ∧
    (∃ err, add_message db llm conversation_id user_id content true mode ragContext n =
        (db.rollback, .error (.serviceError err))) ∧
    db.rollback.committedConversations = db.committedConversations ∧
    db.rollback.committedMessages = db.committedMessages ∧
    db.rollback.committedDocLinks = db.committedDocLinks ∧
    db.rollback.pendingMessages = [] := by
  have hmode' : ¬ (mode ≠ "open" ∧ mode ≠ "rag") := by
    rcases hmode with h | h <;> simp [h]
  refine ⟨⟨"Failed to get LLM response: " ++ e, ?_⟩,
    ⟨"Failed to add message: Failed to get LLM response: " ++ e, ?_⟩, rfl, rfl, rfl, rfl⟩
  · rw [create_conversation, if_neg (show ¬ user_id ≤ 0 by omega), if_neg htitle,
      if_neg hmode', if_neg hfm, hfail]
  · rw [add_message, if_neg (show ¬ conversation_id ≤ 0 by omega),
      if_neg (show ¬ user_id ≤ 0 by omega), if_neg hcontent,
      if_neg (show ¬ ¬ (true = true) by simp), hfail]

/-- Witness for `turn_rolls_back_on_llm_failure`: a session with one
committed exchange and an always-failing engine. -/
theorem turn_rolls_back_on_llm_failure_witness :
    (∃ err, create_conversation
        (DbState.mk [7] [Msg.mk "user" "a", Msg.mk "assistant" "b"] [] [] [] [])
        (fun _ => .error "boom") 1 "t" "open" "hello" [] "" 10 8 =
      ((DbState.mk [7] [Msg.mk "user" "a", Msg.mk "assistant" "b"] [] [] [] []).rollback,
       .error (.serviceError err))) ∧
    (∃ err, add_message
        (DbState.mk [7] [Msg.mk "user" "a", Msg.mk "assistant" "b"] [] [] [] [])
        (fun _ => .error "boom") 7 1 "hello" true "open" "" 10 =
      ((DbState.mk [7] [Msg.mk "user" "a", Msg.mk "assistant" "b"] [] [] [] []).rollback,
       .error (.serviceError err))) ∧
    (DbState.mk [7] [Msg.mk "user" "a", Msg.mk "assistant" "b"] [] [] [] []).rollback.committedConversations = [7] ∧
    (DbState.mk [7] [Msg.mk "user" "a", Msg.mk "assistant" "b"] [] [] [] []).rollback.committedMessages = [Msg.mk "user" "a", Msg.mk "assistant" "b"] ∧
    (DbState.mk [7] [Msg.mk "user" "a", Msg.mk "assistant" "b"] [] [] [] []).rollback.committedDocLinks = [] ∧
    (DbState.mk [7] [Msg.mk "user" "a", Msg.mk "assistant" "b"] [] [] [] []).rollback.pendingMessages = [] :=
  turn_rolls_back_on_llm_failure
    (DbState.mk [7] [Msg.mk "user" "a", Msg.mk "assistant" "b"] [] [] [] [])
    (fun _ => .error "boom") 1 7 "t" "open" "hello" "hello" "" [] 10 8 "boom"
    (fun _ => rfl) (by decide) (by decide) (by decide) (Or.inl rfl)
    (by decide) (by decide)

/-! ### Nearest-neighbor retrieval -/

/-- When the embedder succeeds, the search part of `retrieve_top_k` returns
`min k n` results (n the index cardinality), sorted by ascending distance,
each being the position and squared Euclidean distance of a stored vector. -/
theorem searchIndex_ok (embed : String → Option (List Int)) (index : FaissIndex)
    (query : String) (k : Nat) (q : List Int)
    (hembed : embed (pyStrip query) = some q) :
    ∃ r, searchIndex embed index query k = .ok r ∧
      r.length = min k index.vectors.length ∧
      List.Pairwise (fun a b => a.2 ≤ b.2) r ∧
      ∀ p ∈ r, p ∈ index.vectors.enum.map (fun iv => (iv.1, sqL2 q iv.2)) := by
  have hunfold : searchIndex embed index query k =
      if min k index.vectors.length = 0 then .ok []
      else .ok (faissSearch index q (min k index.vectors.length)) := by
    rw [searchIndex, hembed]
  rw [hunfold]
  by_cases h0 : min k index.vectors.length = 0
  · rw [if_pos h0]
    exact ⟨[], rfl, by simp [h0], by simp, by simp⟩
  · rw [if_neg h0]
    refine ⟨_, rfl, ?_, ?_, ?_⟩
    · rw [faissSearch, List.length_take, List.length_mergeSort, List.length_map,
        List.enum_length]
      omega
    · have hsorted := @List.sorted_mergeSort (Nat × Int)
        (fun a b => decide (a.2 ≤ b.2))
        (fun a b c h1 h2 => by
          simp only [decide_eq_true_eq] at h1 h2 ⊢
          omega)
        (fun a b => by
          rcases Int.le_total a.2 b.2 with h | h <;> simp [h])
        (index.vectors.enum.map (fun iv => (iv.1, sqL2 q iv.2)))
      have htake := hsorted.sublist
        (List.take_sublist (min k index.vectors.length) _)
      exact htake.imp (fun h => by simpa using h)
    · intro p hp
      have hsub := (List.take_sublist (min k index.vectors.length)
        ((index.vectors.enum.map (fun iv => (iv.1, sqL2 q iv.2))).mergeSort
          (fun a b => decide (a.2 ≤ b.2)))).subset
      have := hsub hp
      exact List.mem_mergeSort.mp this

/-- **C7.**  For every state holding a built index for `document_id` (cached,
or loadable from disk) and every valid query whose embedding succeeds,
`retrieve_top_k` returns at most `min k n` results, ordered by ascending
squared Euclidean distance, the distances being those of stored vectors; an
empty index yields an empty result, and `k` larger than `n` yields exactly
`n` results with no error (`rag_service.py` lines 208-225). -/
theorem retrieve_top_k_clamped_sorted (st : RagState) (embed : String → Option (List Int))
    (document_id k : Int) (query : String) (index : FaissIndex) (q : List Int)
    (hdid : 0 < document_id) (hq : pyStrip query ≠ "") (hk : 0 < k)
    (hidx : st.cache.lookup document_id.toNat = some index ∨
      (st.cache.lookup document_id.toNat = none ∧
       st.disk.lookup document_id.toNat = some (.stored index)))
    (hembed : embed (pyStrip query) = some q) :
    ∃ st' r, retrieve_top_k st embed document_id query k = (st', .ok r) ∧
      r.length = min k.toNat index.vectors.length ∧
      List.Pairwise (fun a b => a.2 ≤ b.2) r ∧
      ∀ p ∈ r, p ∈ index.vectors.enum.map (fun iv => (iv.1, sqL2 q iv.2)) := by
  obtain ⟨r, hr, hlen, hsort, hmem⟩ := searchIndex_ok embed index query k.toNat q hembed
  rcases hidx with hc | ⟨hc, hd⟩
  · refine ⟨st, r, ?_, hlen, hsort, hmem⟩
    simp only [retrieve_top_k, if_neg (show ¬ document_id ≤ 0 by omega), if_neg hq,
      if_neg (show ¬ k ≤ 0 by omega), hc, hr]
  · refine ⟨{ st with cache := (document_id.toNat, index) :: st.cache }, r, ?_,
      hlen, hsort, hmem⟩
    simp only [retrieve_top_k, if_neg (show ¬ document_id ≤ 0 by omega), if_neg hq,
      if_neg (show ¬ k ≤ 0 by omega), hc, hd, hr]

/-- Witness for `retrieve_top_k_clamped_sorted`: a cached two-vector index
queried with `k = 5` — the result is clamped to 2 entries. -/
theorem retrieve_top_k_clamped_sorted_witness :
    ∃ st' r, retrieve_top_k (RagState.mk [(1, FaissIndex.mk [[0], [3]])] [])
        (fun _ => some [1]) 1 "q" 5 = (st', .ok r) ∧
      r.length = min (5 : Int).toNat (FaissIndex.mk [[0], [3]]).vectors.length ∧
      List.Pairwise (fun a b => a.2 ≤ b.2) r ∧
      ∀ p ∈ r, p ∈ (FaissIndex.mk [[0], [3]]).vectors.enum.map
        (fun iv => (iv.1, sqL2 [1] iv.2)) :=
  retrieve_top_k_clamped_sorted (RagState.mk [(1, FaissIndex.mk [[0], [3]])] [])
    (fun _ => some [1]) 1 5 "q" (FaissIndex.mk [[0], [3]]) [1]
    (by decide) (by decide) (by decide) (Or.inl rfl) rfl

/-- **C8.**  Querying a positive `document_id` for which no persisted index
exists (not cached, no index file) with a non-blank query and positive `k`
returns an empty sequence and no error (`rag_service.py` lines 194-198). -/
theorem retrieve_top_k_missing_index (st : RagState) (embed : String → Option (List Int))
    (document_id k : Int) (query : String)
    (hdid : 0 < document_id) (hq : pyStrip query ≠ "") (hk : 0 < k)
    (hcache : st.cache.lookup document_id.toNat = none)
    (hdisk : st.disk.lookup document_id.toNat = none) :
    retrieve_top_k st embed document_id query k = (st, .ok []) := by
  simp only [retrieve_top_k, if_neg (show ¬ document_id ≤ 0 by omega), if_neg hq,
    if_neg (show ¬ k ≤ 0 by omega), hcache, hdisk]

/-- Witness for `retrieve_top_k_missing_index` on the empty state. -/
theorem retrieve_top_k_missing_index_witness :
    retrieve_top_k (RagState.mk [] []) (fun _ => some []) 2 "x" 1 =
      (RagState.mk [] [], .ok []) :=
  retrieve_top_k_missing_index (RagState.mk [] []) (fun _ => some []) 2 1 "x"
    (by decide) (by decide) (by decide) rfl rfl

/-- **C5 (against the claim).**  A malformed persisted index does **not**
raise: `faiss.read_index` failures are caught (`rag_service.py` lines
204-206) and the query returns an empty sequence, indistinguishable from the
missing-index case.  Concretely, with document 1's index file unreadable and
a working embedder, `retrieve_top_k` returns `.ok []`. -/
theorem retrieve_top_k_malformed_returns_empty :
    retrieve_top_k (RagState.mk [] [(1, DiskEntry.malformed)]) (fun _ => some [0]) 1 "q" 3 =
      (RagState.mk [] [(1, DiskEntry.malformed)], .ok []) := rfl

/-- **C5 (amended).**  `retrieve_top_k`'s failure modes: an embedder failure
during a query on a present index raises `RAGServiceError`; malformed
persisted index data is swallowed and yields an empty sequence exactly like
the benign missing-index case, which likewise never raises
(`rag_service.py` lines 189-229). -/
theorem retrieve_top_k_failure_modes (st : RagState) (embed : String → Option (List Int))
    (document_id k : Int) (query : String)
    (hdid : 0 < document_id) (hq : pyStrip query ≠ "") (hk : 0 < k) :
    (st.cache.lookup document_id.toNat = none →
      st.disk.lookup document_id.toNat = some .malformed →
      retrieve_top_k st embed document_id query k = (st, .ok [])) ∧
    (∀ index, st.cache.lookup document_id.toNat = some index →
      embed (pyStrip query) = none →
      retrieve_top_k st embed document_id query k =
        (st, .error (.serviceError "Failed to retrieve chunks"))) ∧
    (st.cache.lookup document_id.toNat = none →
      st.disk.lookup document_id.toNat = none →
      retrieve_top_k st embed document_id query k = (st, .ok [])) := by
  refine ⟨?_, ?_, ?_⟩
  · intro hc hd
    simp only [retrieve_top_k, if_neg (show ¬ document_id ≤ 0 by omega), if_neg hq,
      if_neg (show ¬ k ≤ 0 by omega), hc, hd]
  · intro index hc hembed
    simp only [retrieve_top_k, if_neg (show ¬ document_id ≤ 0 by omega), if_neg hq,
      if_neg (show ¬ k ≤ 0 by omega), hc, searchIndex, hembed]
  · intro hc hd
    simp only [retrieve_top_k, if_neg (show ¬ document_id ≤ 0 by omega), if_neg hq,
      if_neg (show ¬ k ≤ 0 by omega), hc, hd]

/-- Witness for `retrieve_top_k_failure_modes`: a state with a malformed file
for document 1 and a cached index for document 2 under a failing embedder. -/
theorem retrieve_top_k_failure_modes_witness :
    (retrieve_top_k (RagState.mk [] [(1, DiskEntry.malformed)]) (fun _ => none) 1 "q" 3 =
      (RagState.mk [] [(1, DiskEntry.malformed)], .ok [])) ∧
    (retrieve_top_k (RagState.mk [(2, FaissIndex.mk [[5]])] []) (fun _ => none) 2 "q" 3 =
      (RagState.mk [(2, FaissIndex.mk [[5]])] [],
       .error (.serviceError "Failed to retrieve chunks"))) :=
  ⟨(retrieve_top_k_failure_modes (RagState.mk [] [(1, DiskEntry.malformed)])
      (fun _ => none) 1 3 "q" (by decide) (by decide) (by decide)).1 rfl rfl,
   (retrieve_top_k_failure_modes (RagState.mk [(2, FaissIndex.mk [[5]])] [])
      (fun _ => none) 2 3 "q" (by decide) (by decide) (by decide)).2.1
      (FaissIndex.mk [[5]]) rfl rfl⟩

end BotGpt
